import Mathlib

/-!
# Physics demo (`src/main.cpp`): embedding and checked properties

The program couples a Box2D world to SFML rectangle shapes.  The embedding below
follows `main.cpp` function by function.

Modelling conventions.

* `float` values are exact rationals (`ℚ`); the properties below are all stated
  for exact arithmetic.
* `bodies` and `sprites` are vectors of pointers.  A pointer is an address
  (`Nat`); `b2Body` objects live in the world (`b2World.body`), `RectangleShape`
  objects live in the free store (`State.store`).  Dereferencing is a lookup.
* `std::vector::operator[]` and indexing of a fixed array are fallible: an index
  outside the container yields `Fault.outOfRange`.
* Box2D and SFML are external.  A body or a shape records what the program
  passes to it; `b2World::Step` and the constant `b2_pi` are parameters
  (`Lib`).  Loop counters are unbounded naturals.
-/

namespace Physics

/-! ## Library data -/

/-- SFML `sf::Vector2f`. -/
structure Vector2f where
  x : ℚ
  y : ℚ
  deriving DecidableEq

/-- Box2D `b2Vec2`. -/
structure b2Vec2 where
  x : ℚ
  y : ℚ
  deriving DecidableEq

/-- SFML `sf::Color` (red, green, blue; alpha is always the default 255 here). -/
structure Color where
  r : Nat
  g : Nat
  b : Nat
  deriving DecidableEq

/-- SFML `Color::White`. -/
def Color.White : Color := ⟨255, 255, 255⟩

/-- Scalar multiple of a vector, `v * k` on `sf::Vector2f`. -/
def Vector2f.scale (v : Vector2f) (k : ℚ) : Vector2f := ⟨v.x * k, v.y * k⟩

/-- Box2D `b2BodyType`. -/
inductive b2BodyType where
  | b2_staticBody
  | b2_kinematicBody
  | b2_dynamicBody
  deriving DecidableEq

/-- Box2D `b2PolygonShape` after `SetAsBox(hx, hy)`: an axis-aligned box with the
given half-extents. -/
structure b2PolygonShape where
  hx : ℚ
  hy : ℚ
  deriving DecidableEq

/-- Polygon shape method `SetAsBox(hx, hy)`. -/
def b2PolygonShape.SetAsBox (hx hy : ℚ) : b2PolygonShape := ⟨hx, hy⟩

/-- Box2D `b2FixtureDef`, the fields the program sets. -/
structure b2FixtureDef where
  density : ℚ
  friction : ℚ
  restitution : ℚ
  shape : b2PolygonShape
  deriving DecidableEq

/-- Box2D `b2BodyDef`, the fields the program sets. -/
structure b2BodyDef where
  type : b2BodyType
  position : b2Vec2
  deriving DecidableEq

/-- Box2D `b2Body`: its type, transform (position and angle), the fixtures
attached to it in order of attachment, and the angular impulses applied to it. -/
structure b2Body where
  type : b2BodyType
  position : b2Vec2
  angle : ℚ
  fixtures : List b2FixtureDef
  angularImpulse : List ℚ
  deriving DecidableEq

/-- Body method `GetPosition()`. -/
def b2Body.GetPosition (b : b2Body) : b2Vec2 := b.position

/-- Body method `GetAngle()`. -/
def b2Body.GetAngle (b : b2Body) : ℚ := b.angle

/-- A `b2Body*`. -/
abbrev BodyPtr := Nat

/-- A `RectangleShape*`. -/
abbrev ShapePtr := Nat

/-- Box2D `b2World`: gravity, the number of bodies created so far, and the body
stored at each address. -/
structure b2World where
  gravity : b2Vec2
  bodyCount : Nat
  body : BodyPtr → b2Body

/-- The body a `b2BodyDef` describes: default angle 0, no fixtures yet. -/
def b2Body.ofDef (d : b2BodyDef) : b2Body :=
  { type := d.type, position := d.position, angle := 0, fixtures := [], angularImpulse := [] }

/-- World constructor `b2World(gravity)`: no bodies. -/
def b2World.new (gravity : b2Vec2) : b2World :=
  { gravity := gravity, bodyCount := 0,
    body := fun _ => b2Body.ofDef ⟨b2BodyType.b2_staticBody, ⟨0, 0⟩⟩ }

/-- World method `CreateBody(&def)`: allocates the next body and returns its address. -/
def b2World.CreateBody (w : b2World) (d : b2BodyDef) : b2World × BodyPtr :=
  ({ w with bodyCount := w.bodyCount + 1,
            body := fun p => if p = w.bodyCount then b2Body.ofDef d else w.body p },
   w.bodyCount)

/-- Body method `CreateFixture(&def)` on the body at address `p`. -/
def b2World.CreateFixture (w : b2World) (p : BodyPtr) (fd : b2FixtureDef) : b2World :=
  { w with body := fun q =>
      if q = p then { w.body p with fixtures := (w.body p).fixtures ++ [fd] } else w.body q }

/-- Body method `ApplyAngularImpulse(impulse, wake)` on the body at address `p`. -/
def b2World.ApplyAngularImpulse (w : b2World) (p : BodyPtr) (impulse : ℚ) : b2World :=
  { w with body := fun q =>
      if q = p then { w.body p with angularImpulse := (w.body p).angularImpulse ++ [impulse] }
      else w.body q }

/-- SFML `sf::RectangleShape`: the values last passed to its setters. -/
structure RectangleShape where
  position : Vector2f
  size : Vector2f
  origin : Vector2f
  rotation : ℚ
  fillColor : Color
  deriving DecidableEq

/-- Default-constructed shape, `RectangleShape()`. -/
def RectangleShape.new : RectangleShape :=
  { position := ⟨0, 0⟩, size := ⟨0, 0⟩, origin := ⟨0, 0⟩, rotation := 0,
    fillColor := Color.White }

/-- Shape method `getPosition()`. -/
def RectangleShape.getPosition (rs : RectangleShape) : Vector2f := rs.position

/-- Shape method `getSize()`. -/
def RectangleShape.getSize (rs : RectangleShape) : Vector2f := rs.size

/-- Shape method `setPosition(v)`. -/
def RectangleShape.setPosition (rs : RectangleShape) (v : Vector2f) : RectangleShape :=
  { rs with position := v }

/-- Shape method `setSize(v)`. -/
def RectangleShape.setSize (rs : RectangleShape) (v : Vector2f) : RectangleShape :=
  { rs with size := v }

/-- Shape method `setOrigin(v)`. -/
def RectangleShape.setOrigin (rs : RectangleShape) (v : Vector2f) : RectangleShape :=
  { rs with origin := v }

/-- Shape method `setRotation(a)`. -/
def RectangleShape.setRotation (rs : RectangleShape) (a : ℚ) : RectangleShape :=
  { rs with rotation := a }

/-- Shape method `setFillColor(c)`. -/
def RectangleShape.setFillColor (rs : RectangleShape) (c : Color) : RectangleShape :=
  { rs with fillColor := c }

/-! ## Constants and coordinate conversion (`main.cpp` lines 21-42) -/

def gameWidth : ℚ := 800
def gameHeight : ℚ := 600
/-- One SFML unit is 30 physics units. -/
def physics_scale : ℚ := 30
/-- Inverse of `physics_scale`. -/
def physics_scale_inv : ℚ := 1 / physics_scale
def velocityIterations : Int := 6
def positionIterations : Int := 2

/-- Convert from `b2Vec2` to `Vector2f`. -/
def bv2_to_sv2 (v : b2Vec2) : Vector2f :=
  ⟨v.x * physics_scale, v.y * physics_scale⟩

/-- Convert from `Vector2f` to `b2Vec2`. -/
def sv2_to_bv2 (v : Vector2f) : b2Vec2 :=
  ⟨v.x * physics_scale_inv, v.y * physics_scale_inv⟩

/-- Convert from screenspace y to physics y. -/
def invert_height (v : Vector2f) : Vector2f :=
  ⟨v.x, gameHeight - v.y⟩

/-! ## Creating bodies (`main.cpp` lines 44-70) -/

/-- Create a Box2D body with a box fixture. -/
def CreatePhysicsBox (World : b2World) (dynamic : Bool) (position size : Vector2f) :
    b2World × BodyPtr :=
  let BodyDef : b2BodyDef :=
    { type := if dynamic then b2BodyType.b2_dynamicBody else b2BodyType.b2_staticBody,
      position := sv2_to_bv2 position }
  let (World1, body) := World.CreateBody BodyDef
  let Shape := b2PolygonShape.SetAsBox ((sv2_to_bv2 size).x * (1 / 2)) ((sv2_to_bv2 size).y * (1 / 2))
  let FixtureDef : b2FixtureDef :=
    { density := if dynamic then 10 else 0,
      friction := if dynamic then 8 / 10 else 1,
      restitution := 1,
      shape := Shape }
  (World1.CreateFixture body FixtureDef, body)

/-- Create a Box2D body with a box fixture, from a `RectangleShape`. -/
def CreatePhysicsBox_rs (world : b2World) (dynamic : Bool) (rs : RectangleShape) :
    b2World × BodyPtr :=
  CreatePhysicsBox world dynamic rs.getPosition rs.getSize

/-! ## Program state -/

/-- Undefined behaviour the model tracks: an index outside a vector or array. -/
inductive Fault where
  | outOfRange
  deriving DecidableEq

/-- A read of one of the two fixed arrays of `init`, with the index read. -/
inductive Access where
  | walls (i : Nat)
  | box_cols (i : Nat)
  deriving DecidableEq

/-- The globals `world`, `bodies`, `sprites`, and the free store holding the
`RectangleShape` objects the entries of `sprites` point to. -/
structure State where
  world : b2World
  bodies : List BodyPtr
  sprites : List ShapePtr
  store : ShapePtr → RectangleShape
  storeNext : ShapePtr

/-- State in which `init()` is called: both vectors empty, no shape allocated.
The global `world` is an unset pointer until `init()` assigns it; the `world`
field here is a stand-in that `init` overwrites before any use. -/
def State.initial : State :=
  { world := b2World.new ⟨0, 0⟩, bodies := [], sprites := [],
    store := fun _ => RectangleShape.new, storeNext := 0 }

/-- Allocation `new RectangleShape()`: returns the address of a fresh default shape. -/
def State.newShape (s : State) : State × ShapePtr :=
  ({ s with storeNext := s.storeNext + 1,
            store := fun p => if p = s.storeNext then RectangleShape.new else s.store p },
   s.storeNext)

/-- Call of a setter through a pointer, `p->set...(...)`. -/
def State.modify (s : State) (p : ShapePtr) (f : RectangleShape → RectangleShape) : State :=
  { s with store := fun q => if q = p then f (s.store p) else s.store q }

/-- Read `arr[i]` of a fixed array, recording the access. -/
def readArray {α : Type} (tag : Nat → Access) (arr : List α) (i : Nat) (log : List Access) :
    Except Fault (α × List Access) :=
  match arr[i]? with
  | some v => .ok (v, log ++ [tag i])
  | none => .error Fault.outOfRange

/-! ## `init` (`main.cpp` lines 72-128) -/

/-- Wall dimensions: position and size of each wall, alternating. -/
def walls : List Vector2f :=
  [ ⟨gameWidth * (1 / 2), 5⟩, ⟨gameWidth, 10⟩,
    ⟨gameWidth * (1 / 2), gameHeight - 5⟩, ⟨gameWidth, 10⟩,
    ⟨5, gameHeight * (1 / 2)⟩, ⟨10, gameHeight⟩,
    ⟨gameWidth - 5, gameHeight * (1 / 2)⟩, ⟨10, gameHeight⟩ ]

/-- Box colours. -/
def box_cols : List Color :=
  [⟨255, 0, 0⟩, ⟨0, 255, 0⟩, ⟨0, 0, 255⟩, ⟨175, 0, 255⟩, ⟨255, 255, 0⟩]

/-- Body of the wall loop at counter `i` (lines 100-110). -/
def wallBody (i : Nat) (sl : State × List Access) : Except Fault (State × List Access) :=
  let (s, w) := sl.1.newShape
  match readArray Access.walls walls i sl.2 with
  | .error e => .error e
  | .ok (v, log) =>
    let s := s.modify w (fun r => r.setPosition v)
    match readArray Access.walls walls (i + 1) log with
    | .error e => .error e
    | .ok (v, log) =>
      let s := s.modify w (fun r => r.setSize v)
      match readArray Access.walls walls (i + 1) log with
      | .error e => .error e
      | .ok (v, log) =>
        let s := s.modify w (fun r => r.setOrigin (v.scale (1 / 2)))
        let s := s.modify w (fun r => r.setFillColor Color.White)
        let s := { s with sprites := s.sprites ++ [w] }
        let (world, p) := CreatePhysicsBox_rs s.world false (s.store w)
        let s := { s with world := world }
        .ok ({ s with bodies := s.bodies ++ [p] }, log)

/-- The wall loop `for (int i = 0; i < 7; i += 2)`, entered with counter `i`. -/
def wallLoop (i : Nat) (sl : State × List Access) : Except Fault (State × List Access) :=
  if i < 7 then
    match wallBody i sl with
    | .error e => .error e
    | .ok sl1 => wallLoop (i + 2) sl1
  else .ok sl
termination_by 7 - i

/-- Body of the box loop at counter `i` (lines 114-126). -/
def boxBody (i : Nat) (sl : State × List Access) : Except Fault (State × List Access) :=
  let (s, sp) := sl.1.newShape
  let s := s.modify sp (fun r => r.setPosition ⟨i * (gameWidth / 12), gameHeight * (7 / 10)⟩)
  let s := s.modify sp (fun r => r.setSize ⟨50, 50⟩)
  let s := s.modify sp (fun r => r.setOrigin ⟨25, 25⟩)
  match readArray Access.box_cols box_cols (i % 5) sl.2 with
  | .error e => .error e
  | .ok (c, log) =>
    let s := s.modify sp (fun r => r.setFillColor c)
    let s := { s with sprites := s.sprites ++ [sp] }
    let (world, b) := CreatePhysicsBox_rs s.world true (s.store sp)
    let s := { s with world := world }
    let s := { s with world := s.world.ApplyAngularImpulse b 5 }
    .ok ({ s with bodies := s.bodies ++ [b] }, log)

/-- The box loop `for (int i = 1; i < 11; ++i)`, entered with counter `i`. -/
def boxLoop (i : Nat) (sl : State × List Access) : Except Fault (State × List Access) :=
  if i < 11 then
    match boxBody i sl with
    | .error e => .error e
    | .ok sl1 => boxLoop (i + 1) sl1
  else .ok sl
termination_by 11 - i

/-- Function `init()`: a new world with gravity `(0, -10)`, then the two loops.
Returns the new state and the array reads performed, in order. -/
def init (s : State) : Except Fault (State × List Access) :=
  let gravity : b2Vec2 := ⟨0, -10⟩
  let s := { s with world := b2World.new gravity }
  match wallLoop 0 (s, []) with
  | .error e => .error e
  | .ok sl => boxLoop 1 sl

/-! ## `Update` and `Render` (`main.cpp` lines 130-149) -/

/-- What the program takes from Box2D without defining it: the constant `b2_pi`
and the world method `Step(dt, velocityIterations, positionIterations)`, an
arbitrary function on the world. -/
structure Lib where
  b2_pi : ℚ
  Step : ℚ → Int → Int → b2World → b2World

/-- Body of the sync loop of `Update` at counter `i` (lines 138-141): two
statements, each reading `sprites[i]` and `bodies[i]`. -/
def syncBody (L : Lib) (i : Nat) (s : State) : Except Fault State :=
  match s.sprites[i]?, s.bodies[i]? with
  | some sp, some b =>
    let s1 := s.modify sp (fun r =>
      r.setPosition (invert_height (bv2_to_sv2 (s.world.body b).GetPosition)))
    match s1.sprites[i]?, s1.bodies[i]? with
    | some sp1, some b1 =>
      .ok (s1.modify sp1 (fun r => r.setRotation ((180 / L.b2_pi) * (s1.world.body b1).GetAngle)))
    | _, _ => .error Fault.outOfRange
  | _, _ => .error Fault.outOfRange

/-- The loop `for (int i = 0; i < bodies.size(); ++i)`, entered with counter `i`. -/
def syncLoop (L : Lib) (i : Nat) (s : State) : Except Fault State :=
  if i < s.bodies.length then
    match h : syncBody L i s with
    | .error e => .error e
    | .ok s1 => syncLoop L (i + 1) s1
  else .ok s
termination_by s.bodies.length - i
decreasing_by
  have hb : s1.bodies = s.bodies := by
    unfold syncBody at h
    split at h
    · dsimp only at h
      split at h
      · cases h; rfl
      · cases h
    · cases h
  rw [hb]
  omega

/-- Function `Update()`; `dt` is the reading of the static clock. -/
def Update (L : Lib) (dt : ℚ) (s : State) : Except Fault State :=
  let s := { s with world := L.Step dt velocityIterations positionIterations s.world }
  syncLoop L 0 s

/-- SFML `sf::Event::EventType`. -/
inductive EventType where
  | Closed
  | Resized
  | LostFocus
  | GainedFocus
  | TextEntered
  | KeyPressed
  | KeyReleased
  | MouseWheelMoved
  | MouseWheelScrolled
  | MouseButtonPressed
  | MouseButtonReleased
  | MouseMoved
  | MouseEntered
  | MouseLeft
  | JoystickButtonPressed
  | JoystickButtonReleased
  | JoystickMoved
  | JoystickConnected
  | JoystickDisconnected
  | TouchBegan
  | TouchMoved
  | TouchEnded
  | SensorChanged
  deriving DecidableEq

/-- SFML `sf::Event`: its type tag (the only member the program reads). -/
structure Event where
  type : EventType
  deriving DecidableEq

/-- SFML `sf::RenderWindow` as the program observes it: whether it is open, the
shapes drawn since the last `clear()`, and the frames shown by `display()`. -/
structure RenderWindow where
  isOpen : Bool
  buffer : List RectangleShape
  displayed : List (List RectangleShape)

/-- Window method `close()`. -/
def RenderWindow.close (w : RenderWindow) : RenderWindow := { w with isOpen := false }

/-- Window method `clear()`. -/
def RenderWindow.clear (w : RenderWindow) : RenderWindow := { w with buffer := [] }

/-- Window method `draw(shape)`. -/
def RenderWindow.draw (w : RenderWindow) (rs : RectangleShape) : RenderWindow :=
  { w with buffer := w.buffer ++ [rs] }

/-- Window method `display()`. -/
def RenderWindow.display (w : RenderWindow) : RenderWindow :=
  { w with displayed := w.displayed ++ [w.buffer] }

/-- Everything `main` works on: the window and the globals. -/
structure Main where
  window : RenderWindow
  state : State

/-- The loop `for (auto s : sprites) window.draw(*s)` over the remaining pointers. -/
def renderLoop : List ShapePtr → Main → Main
  | [], m => m
  | sp :: rest, m => renderLoop rest { m with window := m.window.draw (m.state.store sp) }

/-- Function `Render(window)`. -/
def Render (m : Main) : Main := renderLoop m.state.sprites m

/-! ## `main` (`main.cpp` lines 151-169) -/

/-- The statement `if (event.type == Event::Closed) window.close();`. -/
def handleEvent (e : Event) (m : Main) : Main :=
  if e.type = EventType.Closed then { m with window := m.window.close } else m

/-- The loop `while (window.pollEvent(event))` over the events `pollEvent` hands
out in this frame, in order. -/
def pollLoop : List Event → Main → Main
  | [], m => m
  | e :: rest, m => pollLoop rest (handleEvent e m)

/-- What the environment supplies to one frame: the pending events and the clock
reading. -/
structure FrameInput where
  events : List Event
  dt : ℚ

/-- One pass through the body of `while (window.isOpen())` (lines 156-165). -/
def frame (L : Lib) (f : FrameInput) (m : Main) : Except Fault Main :=
  let m := pollLoop f.events m
  let m := { m with window := m.window.clear }
  match Update L f.dt m.state with
  | .error e => .error e
  | .ok s =>
    let m := { m with state := s }
    let m := Render m
    .ok { m with window := m.window.display }

/-- The loop `while (window.isOpen())`, fed one `FrameInput` per frame.  It ends
when the window is closed; it stops early only when the inputs run out. -/
def mainLoop (L : Lib) : List FrameInput → Main → Except Fault Main
  | [], m => .ok m
  | f :: rest, m =>
    if m.window.isOpen then
      match frame L f m with
      | .error e => .error e
      | .ok m1 => mainLoop L rest m1
    else .ok m

/-- Function `main()`: open the window, `init()`, then the frame loop. -/
def main (L : Lib) (inputs : List FrameInput) : Except Fault Main :=
  let window : RenderWindow := { isOpen := true, buffer := [], displayed := [] }
  match init State.initial with
  | .error e => .error e
  | .ok (s, _) => mainLoop L inputs { window := window, state := s }

/-! ## Definitions used in the statements -/

/-- Closed form of the shape stored at address `p` once `init` has run. -/
def layoutShape (p : ShapePtr) : RectangleShape :=
  match p with
  | 0 => ⟨⟨400, 5⟩, ⟨800, 10⟩, ⟨400, 5⟩, 0, Color.White⟩
  | 1 => ⟨⟨400, 595⟩, ⟨800, 10⟩, ⟨400, 5⟩, 0, Color.White⟩
  | 2 => ⟨⟨5, 300⟩, ⟨10, 600⟩, ⟨5, 300⟩, 0, Color.White⟩
  | 3 => ⟨⟨795, 300⟩, ⟨10, 600⟩, ⟨5, 300⟩, 0, Color.White⟩
  | k + 4 =>
    if k < 10 then
      ⟨⟨((k + 1 : Nat) : ℚ) * (800 / 12), 420⟩, ⟨50, 50⟩, ⟨25, 25⟩, 0,
        box_cols.getD ((k + 1) % 5) Color.White⟩
    else RectangleShape.new

/-- Closed form of the body stored at address `p` once `init` has run. -/
def layoutBody (p : BodyPtr) : b2Body :=
  if p < 4 then
    { type := b2BodyType.b2_staticBody
      position := ⟨(layoutShape p).position.x / 30, (layoutShape p).position.y / 30⟩
      angle := 0
      fixtures := [⟨0, 1, 1, ⟨(layoutShape p).size.x / 60, (layoutShape p).size.y / 60⟩⟩]
      angularImpulse := [] }
  else if p < 14 then
    { type := b2BodyType.b2_dynamicBody
      position := ⟨(layoutShape p).position.x / 30, (layoutShape p).position.y / 30⟩
      angle := 0
      fixtures := [⟨10, 8 / 10, 1, ⟨(layoutShape p).size.x / 60, (layoutShape p).size.y / 60⟩⟩]
      angularImpulse := [5] }
  else b2Body.ofDef ⟨b2BodyType.b2_staticBody, ⟨0, 0⟩⟩

/-- The array reads of `init`, in program order. -/
def layoutReads : List Access :=
  [Access.walls 0, Access.walls 1, Access.walls 1, Access.walls 2, Access.walls 3, Access.walls 3,
   Access.walls 4, Access.walls 5, Access.walls 5, Access.walls 6, Access.walls 7, Access.walls 7,
   Access.box_cols 1, Access.box_cols 2, Access.box_cols 3, Access.box_cols 4, Access.box_cols 0,
   Access.box_cols 1, Access.box_cols 2, Access.box_cols 3, Access.box_cols 4, Access.box_cols 0]


/-- The state after the first `n` sprites and bodies of `init` have been created. -/
def Layout (n : Nat) (s : State) : Prop :=
  s.sprites = List.range n ∧ s.bodies = List.range n ∧ s.storeNext = n ∧
  s.world.bodyCount = n ∧ s.world.gravity = ⟨0, -10⟩ ∧
  (∀ p, p < n → s.store p = layoutShape p) ∧ (∀ p, p < n → s.world.body p = layoutBody p)

/-- The shape `r` after the two sync statements have copied the transform of `b`. -/
def synced (L : Lib) (b : b2Body) (r : RectangleShape) : RectangleShape :=
  { r with position := invert_height (bv2_to_sv2 b.position)
           rotation := 180 / L.b2_pi * b.angle }

/-- Whether an array read of `init` is inside its array (`walls` has 8 entries,
`box_cols` has 5). -/
def Access.inBounds : Access → Prop
  | Access.walls i => i < Physics.walls.length
  | Access.box_cols i => i < Physics.box_cols.length

/-- A state with one body and no sprite: a world holding one static box, the
pointer to it in `bodies`, and `sprites` empty. -/
def shortState : State :=
  { world := (CreatePhysicsBox (b2World.new ⟨0, -10⟩) false ⟨0, 0⟩ ⟨10, 10⟩).1,
    bodies := [0], sprites := [],
    store := fun _ => RectangleShape.new, storeNext := 0 }

/-- The screen rectangle of an unrotated shape contains the point `q`: the local
rectangle `[0, size]` is placed so that `origin` lands on `position`. -/
def RectangleShape.covers (r : RectangleShape) (q : Vector2f) : Prop :=
  r.position.x - r.origin.x ≤ q.x ∧ q.x ≤ r.position.x - r.origin.x + r.size.x ∧
  r.position.y - r.origin.y ≤ q.y ∧ q.y ≤ r.position.y - r.origin.y + r.size.y

/-- A box fixture of an unrotated body contains the point `q`: the box is centred
on the body position and reaches `hx`, `hy` to either side. -/
def b2Body.covers (b : b2Body) (q : b2Vec2) : Prop :=
  ∃ fd ∈ b.fixtures,
    b.position.x - fd.shape.hx ≤ q.x ∧ q.x ≤ b.position.x + fd.shape.hx ∧
    b.position.y - fd.shape.hy ≤ q.y ∧ q.y ≤ b.position.y + fd.shape.hy

/-! ## Lemmas on `init` -/

theorem bind_ok_right {ε α : Type} (x : Except ε α) : x.bind Except.ok = x := by
  cases x <;> rfl

theorem bind_bind_fun {ε α β γ : Type} (x : Except ε α) (f : α → Except ε β)
    (g : β → Except ε γ) : x.bind (fun a => (f a).bind g) = (x.bind f).bind g := by
  cases x <;> rfl

theorem wallLoop_step (i : Nat) (h : i < 7) (sl : State × List Access) :
    wallLoop i sl = (wallBody i sl).bind (wallLoop (i + 2)) := by
  rw [wallLoop, if_pos h]
  cases wallBody i sl <;> rfl

theorem wallLoop_done (i : Nat) (h : ¬ i < 7) (sl : State × List Access) :
    wallLoop i sl = .ok sl := by
  rw [wallLoop, if_neg h]

theorem boxLoop_step (i : Nat) (h : i < 11) (sl : State × List Access) :
    boxLoop i sl = (boxBody i sl).bind (boxLoop (i + 1)) := by
  rw [boxLoop, if_pos h]
  cases boxBody i sl <;> rfl

theorem boxLoop_done (i : Nat) (h : ¬ i < 11) (sl : State × List Access) :
    boxLoop i sl = .ok sl := by
  rw [boxLoop, if_neg h]

/-- The wall loop is its body run at the counters 0, 2, 4, 6, in this order. -/
theorem wallLoop_unroll (sl : State × List Access) :
    wallLoop 0 sl = (((wallBody 0 sl).bind (wallBody 2)).bind (wallBody 4)).bind (wallBody 6) := by
  have e8 : wallLoop 8 = Except.ok := funext (wallLoop_done 8 (by decide))
  have e6 : wallLoop 6 = wallBody 6 := by
    funext x; rw [wallLoop_step 6 (by decide), e8, bind_ok_right]
  have e4 : wallLoop 4 = fun x => (wallBody 4 x).bind (wallBody 6) := by
    funext x; rw [wallLoop_step 4 (by decide), e6]
  have e2 : wallLoop 2 = fun x => ((wallBody 2 x).bind (wallBody 4)).bind (wallBody 6) := by
    funext x; rw [wallLoop_step 2 (by decide), e4, bind_bind_fun]
  rw [wallLoop_step 0 (by decide), e2, bind_bind_fun, bind_bind_fun]

/-- The box loop entered at counter `i ≤ 11` is its body run at `i, i+1, ..., 10`. -/
theorem boxLoop_eq_foldlM (k : Nat) : ∀ (i : Nat), i + k = 11 → ∀ sl : State × List Access,
    boxLoop i sl = (List.range' i k).foldlM (fun acc j => boxBody j acc) sl := by
  induction k with
  | zero =>
    intro i hi sl
    rw [boxLoop_done i (by omega)]
    rfl
  | succ k ih =>
    intro i hi sl
    rw [boxLoop_step i (by omega), List.range'_succ, List.foldlM_cons]
    cases h : boxBody i sl with
    | error e => rfl
    | ok sl1 =>
      show boxLoop (i + 1) sl1 = _
      rw [ih (i + 1) (by omega)]
      rfl

/-- What `CreatePhysicsBox` leaves at address `q` of the world. -/
theorem CreatePhysicsBox_body (w : b2World) (dynamic : Bool) (pos size : Vector2f) (q : BodyPtr) :
    (CreatePhysicsBox w dynamic pos size).1.body q =
      if q = w.bodyCount then
        { type := if dynamic then b2BodyType.b2_dynamicBody else b2BodyType.b2_staticBody
          position := sv2_to_bv2 pos
          angle := 0
          fixtures := [{ density := if dynamic then 10 else 0
                         friction := if dynamic then 8 / 10 else 1
                         restitution := 1
                         shape := ⟨(sv2_to_bv2 size).x * (1 / 2), (sv2_to_bv2 size).y * (1 / 2)⟩ }]
          angularImpulse := [] }
      else w.body q := by
  by_cases h : q = w.bodyCount <;>
    simp [CreatePhysicsBox, b2World.CreateBody, b2World.CreateFixture, b2Body.ofDef,
      b2PolygonShape.SetAsBox, h]

theorem CreatePhysicsBox_ptr (w : b2World) (dynamic : Bool) (pos size : Vector2f) :
    (CreatePhysicsBox w dynamic pos size).2 = w.bodyCount := by
  simp [CreatePhysicsBox, b2World.CreateBody]

theorem CreatePhysicsBox_bodyCount (w : b2World) (dynamic : Bool) (pos size : Vector2f) :
    (CreatePhysicsBox w dynamic pos size).1.bodyCount = w.bodyCount + 1 := by
  simp [CreatePhysicsBox, b2World.CreateBody, b2World.CreateFixture]

theorem CreatePhysicsBox_gravity (w : b2World) (dynamic : Bool) (pos size : Vector2f) :
    (CreatePhysicsBox w dynamic pos size).1.gravity = w.gravity := by
  simp [CreatePhysicsBox, b2World.CreateBody, b2World.CreateFixture]

/-- One pass of the wall loop body, in closed form. -/
theorem wallBody_eval (i : Nat) (h1 : i < walls.length) (h2 : i + 1 < walls.length)
    (s : State) (log : List Access) :
    wallBody i (s, log) = .ok
      ({ world := (CreatePhysicsBox s.world false walls[i] walls[i + 1]).1
         bodies := s.bodies ++ [s.world.bodyCount]
         sprites := s.sprites ++ [s.storeNext]
         store := fun q =>
           if q = s.storeNext then
             ⟨walls[i], walls[i + 1], (walls[i + 1]).scale (1 / 2), 0, Color.White⟩
           else s.store q
         storeNext := s.storeNext + 1 },
       log ++ [Access.walls i, Access.walls (i + 1), Access.walls (i + 1)]) := by
  unfold wallBody
  simp only [readArray, List.getElem?_eq_getElem h1, List.getElem?_eq_getElem h2]
  simp only [State.newShape, State.modify, CreatePhysicsBox_rs, RectangleShape.setPosition,
    RectangleShape.setSize, RectangleShape.setOrigin, RectangleShape.setFillColor,
    RectangleShape.getPosition, RectangleShape.getSize, RectangleShape.new, if_true,
    CreatePhysicsBox_ptr, List.append_assoc, List.singleton_append, List.cons_append,
    List.nil_append]
  congr 2
  congr 1
  funext q
  by_cases h : q = s.storeNext <;> simp [h]

/-- One pass of the box loop body, in closed form. -/
theorem boxBody_eval (i : Nat) (h1 : i % 5 < box_cols.length) (s : State) (log : List Access) :
    boxBody i (s, log) = .ok
      ({ world := (CreatePhysicsBox s.world true ⟨i * (gameWidth / 12), gameHeight * (7 / 10)⟩
                    ⟨50, 50⟩).1.ApplyAngularImpulse s.world.bodyCount 5
         bodies := s.bodies ++ [s.world.bodyCount]
         sprites := s.sprites ++ [s.storeNext]
         store := fun q =>
           if q = s.storeNext then
             ⟨⟨i * (gameWidth / 12), gameHeight * (7 / 10)⟩, ⟨50, 50⟩, ⟨25, 25⟩, 0,
               box_cols[i % 5]⟩
           else s.store q
         storeNext := s.storeNext + 1 },
       log ++ [Access.box_cols (i % 5)]) := by
  unfold boxBody
  simp only [readArray, List.getElem?_eq_getElem h1]
  simp only [State.newShape, State.modify, CreatePhysicsBox_rs, RectangleShape.setPosition,
    RectangleShape.setSize, RectangleShape.setOrigin, RectangleShape.setFillColor,
    RectangleShape.getPosition, RectangleShape.getSize, RectangleShape.new, if_true,
    CreatePhysicsBox_ptr]
  congr 2
  congr 1
  funext q
  by_cases h : q = s.storeNext <;> simp [h]

theorem walls_length : walls.length = 8 := rfl

theorem box_cols_length : box_cols.length = 5 := rfl

/-- Pass `k` of the wall loop (counter `2 * k`) extends the layout by wall `k`. -/
theorem wallBody_layout (k : Nat) (hk : k < 4) (s : State) (log : List Access)
    (hs : Layout k s) :
    ∃ s1, wallBody (2 * k) (s, log) = .ok (s1, log ++
        [Access.walls (2 * k), Access.walls (2 * k + 1), Access.walls (2 * k + 1)]) ∧
      Layout (k + 1) s1 := by
  obtain ⟨h1, h2, h3, h4, h5, h6, h7⟩ := hs
  have b1 : 2 * k < walls.length := by rw [walls_length]; omega
  have b2 : 2 * k + 1 < walls.length := by rw [walls_length]; omega
  refine ⟨_, wallBody_eval (2 * k) b1 b2 s log, ?_, ?_, ?_, ?_, ?_, ?_, ?_⟩
  · simp [h1, h3, List.range_succ]
  · simp [h2, h4, List.range_succ]
  · simp [h3]
  · simp [CreatePhysicsBox_bodyCount, h4]
  · simp [CreatePhysicsBox_gravity, h5]
  · intro p hp
    by_cases hpk : p = k
    · subst hpk
      simp only [h3, if_true]
      interval_cases p <;>
        norm_num [walls, layoutShape, gameWidth, gameHeight, Vector2f.scale]
    · simp only [h3, hpk, if_false]
      exact h6 p (by omega)
  · intro p hp
    rw [CreatePhysicsBox_body]
    by_cases hpk : p = k
    · subst hpk
      simp only [h4, if_true]
      interval_cases p <;>
        norm_num [walls, layoutShape, layoutBody, gameWidth, gameHeight, sv2_to_bv2,
          physics_scale_inv, physics_scale]
    · simp only [h4, hpk, if_false]
      exact h7 p (by omega)

theorem ApplyAngularImpulse_body (w : b2World) (p q : BodyPtr) (x : ℚ) :
    (w.ApplyAngularImpulse p x).body q =
      if q = p then { w.body p with angularImpulse := (w.body p).angularImpulse ++ [x] }
      else w.body q := rfl

/-- Pass `i` of the box loop extends the layout by box `i` (at index `i + 3`). -/
theorem boxBody_layout (i : Nat) (h1 : 1 ≤ i) (h2 : i < 11) (s : State) (log : List Access)
    (hs : Layout (i + 3) s) :
    ∃ s1, boxBody i (s, log) = .ok (s1, log ++ [Access.box_cols (i % 5)]) ∧
      Layout (i + 4) s1 := by
  obtain ⟨g1, g2, g3, g4, g5, g6, g7⟩ := hs
  have b1 : i % 5 < box_cols.length := by rw [box_cols_length]; omega
  refine ⟨_, boxBody_eval i b1 s log, ?_, ?_, ?_, ?_, ?_, ?_, ?_⟩
  · simp [g1, g3, List.range_succ]
  · simp [g2, g4, List.range_succ]
  · simp [g3]
  · simp [b2World.ApplyAngularImpulse, CreatePhysicsBox_bodyCount, g4]
  · simp [b2World.ApplyAngularImpulse, CreatePhysicsBox_gravity, g5]
  · intro p hp
    by_cases hpk : p = i + 3
    · subst hpk
      simp only [g3, if_true]
      interval_cases i <;>
        norm_num [box_cols, layoutShape, gameWidth, gameHeight] <;> rfl
    · simp only [g3, hpk, if_false]
      exact g6 p (by omega)
  · intro p hp
    rw [ApplyAngularImpulse_body]
    by_cases hpk : p = i + 3
    · subst hpk
      simp only [g4, if_true, CreatePhysicsBox_body]
      interval_cases i <;>
        norm_num [layoutShape, layoutBody, gameWidth, gameHeight, sv2_to_bv2,
          physics_scale_inv, physics_scale]
    · simp only [g4, hpk, if_false, CreatePhysicsBox_body]
      exact g7 p (by omega)

/-- The box loop entered at counter `i` completes the layout. -/
theorem boxLoop_layout (k : Nat) : ∀ (i : Nat), i + k = 11 → 1 ≤ i →
    ∀ (s : State) (log : List Access), Layout (i + 3) s →
    ∃ s1, boxLoop i (s, log) =
        .ok (s1, log ++ (List.range' i k).map (fun j => Access.box_cols (j % 5))) ∧
      Layout 14 s1 := by
  induction k with
  | zero =>
    intro i hi _ s log hs
    have : i = 11 := by omega
    subst this
    exact ⟨s, by rw [boxLoop_done 11 (by decide)]; simp, hs⟩
  | succ k ih =>
    intro i hi h1 s log hs
    obtain ⟨s1, e1, l1⟩ := boxBody_layout i h1 (by omega) s log hs
    obtain ⟨s2, e2, l2⟩ := ih (i + 1) (by omega) (by omega) s1 _ l1
    refine ⟨s2, ?_, l2⟩
    rw [boxLoop_step i (by omega), e1]
    simp only [Except.bind]
    rw [e2]
    simp [List.range'_succ]

theorem Layout_initial : Layout 0 { State.initial with world := b2World.new ⟨0, -10⟩ } := by
  refine ⟨rfl, rfl, rfl, rfl, rfl, ?_, ?_⟩ <;> intro p hp <;> omega

/-- Evaluation of `init` on the start state. -/
theorem init_eval : ∃ s, init State.initial = .ok (s, layoutReads) ∧ Layout 14 s := by
  obtain ⟨s1, e1, l1⟩ := wallBody_layout 0 (by decide) _ [] Layout_initial
  obtain ⟨s2, e2, l2⟩ := wallBody_layout 1 (by decide) s1 _ l1
  obtain ⟨s3, e3, l3⟩ := wallBody_layout 2 (by decide) s2 _ l2
  obtain ⟨s4, e4, l4⟩ := wallBody_layout 3 (by decide) s3 _ l3
  obtain ⟨s5, e5, l5⟩ := boxLoop_layout 10 1 rfl (le_refl 1) s4 _ l4
  refine ⟨s5, ?_, l5⟩
  simp only [init, wallLoop_unroll]
  simp only [Nat.mul_zero, Nat.mul_one, Nat.reduceMul] at e1 e2 e3 e4
  rw [e1]
  simp only [Except.bind]
  rw [e2]
  simp only [Except.bind]
  rw [e3]
  simp only [Except.bind]
  rw [e4]
  simp only [Except.bind]
  rw [e5]
  simp [layoutReads, List.range']

/-! ## Lemmas on `Update` -/

/-- One pass of the sync loop body with both reads in range, in closed form. -/
theorem syncBody_eval (L : Lib) (i : Nat) (s : State) (sp : ShapePtr) (b : BodyPtr)
    (h1 : s.sprites[i]? = some sp) (h2 : s.bodies[i]? = some b) :
    syncBody L i s = .ok { s with store :=
      (fun q => if q = sp then synced L (s.world.body b) (s.store sp) else s.store q) } := by
  unfold syncBody
  simp only [h1, h2, State.modify]
  congr 2
  funext q
  by_cases h : q = sp <;>
    simp [h, synced, RectangleShape.setPosition, RectangleShape.setRotation,
      b2Body.GetPosition, b2Body.GetAngle]

/-- A read of `sprites[i]` out of range makes the loop body fault. -/
theorem syncBody_fault (L : Lib) (i : Nat) (s : State) (h : s.sprites.length ≤ i) :
    syncBody L i s = .error Fault.outOfRange := by
  unfold syncBody
  rw [List.getElem?_eq_none h]

theorem syncLoop_step (L : Lib) (i : Nat) (s : State) (h : i < s.bodies.length) :
    syncLoop L i s = (syncBody L i s).bind (syncLoop L (i + 1)) := by
  rw [syncLoop, if_pos h]
  split <;> simp_all [Except.bind]

theorem syncLoop_done (L : Lib) (i : Nat) (s : State) (h : ¬ i < s.bodies.length) :
    syncLoop L i s = .ok s := by
  rw [syncLoop, if_neg h]

/-- The sync loop, entered at counter `i` with every index of `bodies` an index
of `sprites`, returns; it leaves both vectors, the world and the allocation
mark alone, keeps size, origin and colour of every shape, leaves alone every
shape not pointed to from `sprites[i..]`, and sets position and rotation of the
shape at `sprites[j]` from `bodies[j]` unless a later entry of `sprites` is the
same pointer. -/
theorem syncLoop_spec (L : Lib) (k : Nat) : ∀ (i : Nat) (s : State),
    s.bodies.length - i = k → s.bodies.length ≤ s.sprites.length →
    ∃ s1, syncLoop L i s = .ok s1 ∧ s1.sprites = s.sprites ∧ s1.bodies = s.bodies ∧
      s1.world = s.world ∧ s1.storeNext = s.storeNext ∧
      (∀ q, (s1.store q).size = (s.store q).size ∧ (s1.store q).origin = (s.store q).origin ∧
        (s1.store q).fillColor = (s.store q).fillColor) ∧
      (∀ q, (∀ j, i ≤ j → j < s.bodies.length → s.sprites[j]? ≠ some q) →
        s1.store q = s.store q) ∧
      (∀ j sp b, i ≤ j → s.sprites[j]? = some sp → s.bodies[j]? = some b →
        (∀ j1, j < j1 → j1 < s.bodies.length → s.sprites[j1]? ≠ some sp) →
        (s1.store sp).position = invert_height (bv2_to_sv2 (s.world.body b).position) ∧
        (s1.store sp).rotation = 180 / L.b2_pi * (s.world.body b).angle) := by
  induction k with
  | zero =>
    intro i s hk _
    refine ⟨s, syncLoop_done L i s (by omega), rfl, rfl, rfl, rfl, fun q => ⟨rfl, rfl, rfl⟩,
      fun q _ => rfl, ?_⟩
    intro j sp b hij _ hb _
    have : j < s.bodies.length := by
      by_contra hlt
      rw [List.getElem?_eq_none (by omega)] at hb
      cases hb
    omega
  | succ k ih =>
    intro i s hk hlen
    have hi : i < s.bodies.length := by omega
    have hi2 : i < s.sprites.length := by omega
    have e := syncBody_eval L i s s.sprites[i] s.bodies[i]
      (List.getElem?_eq_getElem hi2) (List.getElem?_eq_getElem hi)
    obtain ⟨s1, r1, r2, r3, r4, r5, r6, r7, r8⟩ := ih (i + 1)
      { s with store :=
        (fun q => if q = s.sprites[i] then synced L (s.world.body s.bodies[i]) (s.store s.sprites[i])
          else s.store q) } (by simp only; omega) hlen
    simp only at r1 r2 r3 r4 r5 r6 r7 r8
    clear ih
    refine ⟨s1, ?_, r2, r3, r4, r5, ?_, ?_, ?_⟩
    · rw [syncLoop_step L i s hi, e]
      simpa [Except.bind] using r1
    · intro q
      have h6 := r6 q
      by_cases hq : q = s.sprites[i]
      · simp only [if_pos hq, synced] at h6
        rw [hq]
        rw [hq] at h6
        exact h6
      · simp only [if_neg hq] at h6
        exact h6
    · intro q hq
      have h0 : q ≠ s.sprites[i] := by
        intro hc
        exact hq i (le_refl i) hi (by rw [List.getElem?_eq_getElem hi2, hc])
      rw [r7 q (fun j hj hjl => hq j (by omega) hjl)]
      simp [h0]
    · intro j sp b hij hsp hb hlast
      rcases Nat.eq_or_lt_of_le hij with heq | hlt
      · subst heq
        have hsp1 : s.sprites[i] = sp := by
          rw [List.getElem?_eq_getElem hi2] at hsp; exact Option.some.inj hsp
        have hb1 : s.bodies[i] = b := by
          rw [List.getElem?_eq_getElem hi] at hb; exact Option.some.inj hb
        rw [r7 sp (fun j1 hj1 hjl => hlast j1 (by omega) hjl)]
        simp [hsp1, hb1, synced]
      · exact r8 j sp b (by omega) hsp hb hlast

/-- With fewer sprites than bodies the sync loop reaches `sprites[sprites.size()]`. -/
theorem syncLoop_fault (L : Lib) (k : Nat) : ∀ (i : Nat) (s : State),
    s.sprites.length - i = k → i ≤ s.sprites.length → s.sprites.length < s.bodies.length →
    syncLoop L i s = .error Fault.outOfRange := by
  induction k with
  | zero =>
    intro i s hk hi hlt
    rw [syncLoop_step L i s (by omega), syncBody_fault L i s (by omega)]
    rfl
  | succ k ih =>
    intro i s hk hi hlt
    have hi2 : i < s.sprites.length := by omega
    have hi1 : i < s.bodies.length := by omega
    rw [syncLoop_step L i s hi1, syncBody_eval L i s s.sprites[i] s.bodies[i]
      (List.getElem?_eq_getElem hi2) (List.getElem?_eq_getElem hi1)]
    simp only [Except.bind]
    exact ih (i + 1) _ (by simp only; omega) (by simp only; omega) hlt

/-- `Update` returns when every index of `bodies` is an index of `sprites`. -/
theorem Update_spec (L : Lib) (dt : ℚ) (s : State) (hlen : s.bodies.length ≤ s.sprites.length) :
    ∃ s1, Update L dt s = .ok s1 ∧ s1.sprites = s.sprites ∧ s1.bodies = s.bodies ∧
      s1.world = L.Step dt velocityIterations positionIterations s.world ∧
      s1.storeNext = s.storeNext ∧
      (∀ q, (s1.store q).size = (s.store q).size ∧ (s1.store q).origin = (s.store q).origin ∧
        (s1.store q).fillColor = (s.store q).fillColor) ∧
      (∀ q, (∀ j, j < s.bodies.length → s.sprites[j]? ≠ some q) → s1.store q = s.store q) ∧
      (∀ j sp b, s.sprites[j]? = some sp → s.bodies[j]? = some b →
        (∀ j1, j < j1 → j1 < s.bodies.length → s.sprites[j1]? ≠ some sp) →
        (s1.store sp).position = invert_height (bv2_to_sv2
          ((L.Step dt velocityIterations positionIterations s.world).body b).position) ∧
        (s1.store sp).rotation = 180 / L.b2_pi *
          ((L.Step dt velocityIterations positionIterations s.world).body b).angle) := by
  obtain ⟨s1, r1, r2, r3, r4, r5, r6, r7, r8⟩ := syncLoop_spec L _ 0
    { s with world := L.Step dt velocityIterations positionIterations s.world } rfl hlen
  simp only at r2 r3 r4 r5 r6 r7 r8
  exact ⟨s1, r1, r2, r3, r4, r5, r6, fun q hq => r7 q (fun j _ => hq j),
    fun j sp b => r8 j sp b (Nat.zero_le j)⟩

/-- `Update` faults when `sprites` is shorter than `bodies`. -/
theorem Update_fault (L : Lib) (dt : ℚ) (s : State) (hlt : s.sprites.length < s.bodies.length) :
    Update L dt s = .error Fault.outOfRange :=
  syncLoop_fault L _ 0 { s with world := L.Step dt velocityIterations positionIterations s.world }
    rfl (Nat.zero_le _) hlt

/-! ### Window and frame loop -/

theorem renderLoop_state (ps : List ShapePtr) : ∀ m : Main, (renderLoop ps m).state = m.state := by
  induction ps with
  | nil => intro m; rfl
  | cons p ps ih => intro m; rw [renderLoop, ih]

theorem renderLoop_window (ps : List ShapePtr) : ∀ m : Main,
    (renderLoop ps m).window.isOpen = m.window.isOpen ∧
    (renderLoop ps m).window.displayed = m.window.displayed ∧
    (renderLoop ps m).window.buffer = m.window.buffer ++ ps.map m.state.store := by
  induction ps with
  | nil => intro m; simp [renderLoop]
  | cons p ps ih =>
    intro m
    rw [renderLoop]
    obtain ⟨h1, h2, h3⟩ := ih { m with window := m.window.draw (m.state.store p) }
    refine ⟨h1, h2, ?_⟩
    rw [h3]
    simp [RenderWindow.draw]

theorem handleEvent_state (e : Event) (m : Main) : (handleEvent e m).state = m.state := by
  unfold handleEvent
  split <;> rfl

theorem handleEvent_other (e : Event) (m : Main) (h : e.type ≠ EventType.Closed) :
    handleEvent e m = m := by
  unfold handleEvent
  rw [if_neg h]

theorem pollLoop_state (evs : List Event) : ∀ m : Main, (pollLoop evs m).state = m.state := by
  induction evs with
  | nil => intro m; rfl
  | cons e evs ih => intro m; rw [pollLoop, ih, handleEvent_state]

theorem pollLoop_window (evs : List Event) : ∀ m : Main,
    (pollLoop evs m).window.buffer = m.window.buffer ∧
    (pollLoop evs m).window.displayed = m.window.displayed := by
  induction evs with
  | nil => intro m; exact ⟨rfl, rfl⟩
  | cons e evs ih =>
    intro m
    rw [pollLoop]
    obtain ⟨h1, h2⟩ := ih (handleEvent e m)
    rw [h1, h2]
    unfold handleEvent
    split <;> exact ⟨rfl, rfl⟩

theorem pollLoop_other (evs : List Event) : ∀ m : Main,
    (∀ e ∈ evs, e.type ≠ EventType.Closed) → pollLoop evs m = m := by
  induction evs with
  | nil => intro m _; rfl
  | cons e evs ih =>
    intro m h
    rw [pollLoop, handleEvent_other e m (h e (List.mem_cons_self e evs))]
    exact ih m (fun e1 h1 => h e1 (List.mem_cons_of_mem e h1))

/-- The poll loop closes the window exactly on a `Closed` event. -/
theorem pollLoop_isOpen (evs : List Event) : ∀ m : Main,
    ((pollLoop evs m).window.isOpen = false ↔
      m.window.isOpen = false ∨ ∃ e ∈ evs, e.type = EventType.Closed) := by
  induction evs with
  | nil => intro m; simp [pollLoop]
  | cons e evs ih =>
    intro m
    rw [pollLoop, ih]
    unfold handleEvent
    by_cases h : e.type = EventType.Closed
    · simp [h, RenderWindow.close]
    · simp [h]

/-- One frame, when `Update` does not fault: the window flag is the one the poll
loop leaves, one more frame is displayed, the vectors are untouched. -/
theorem frame_spec (L : Lib) (f : FrameInput) (m : Main)
    (hlen : m.state.bodies.length ≤ m.state.sprites.length) :
    ∃ m1, frame L f m = .ok m1 ∧
      m1.window.isOpen = (pollLoop f.events m).window.isOpen ∧
      m1.window.displayed.length = m.window.displayed.length + 1 ∧
      m1.state.sprites = m.state.sprites ∧ m1.state.bodies = m.state.bodies ∧
      Update L f.dt m.state = .ok m1.state := by
  obtain ⟨s1, r1, r2, r3, -⟩ := Update_spec L f.dt m.state hlen
  unfold frame
  simp only [pollLoop_state, r1]
  refine ⟨_, rfl, ?_, ?_, ?_, ?_, ?_⟩
  · simp only [Render, RenderWindow.display]
    rw [(renderLoop_window _ _).1]
    rfl
  · simp only [Render, RenderWindow.display, List.length_append, List.length_singleton]
    rw [(renderLoop_window _ _).2.1]
    simp only [RenderWindow.clear]
    rw [(pollLoop_window _ _).2]
  · simp only [Render]
    rw [renderLoop_state]
    exact r2
  · simp only [Render]
    rw [renderLoop_state]
    exact r3
  · simp only [Render]
    rw [renderLoop_state]

/-- The frame loop never faults from a state whose `sprites` covers `bodies`, and
keeps both vectors. -/
theorem mainLoop_spec (L : Lib) (inputs : List FrameInput) : ∀ m : Main,
    m.state.bodies.length ≤ m.state.sprites.length →
    ∃ m1, mainLoop L inputs m = .ok m1 ∧ m1.state.sprites = m.state.sprites ∧
      m1.state.bodies = m.state.bodies := by
  induction inputs with
  | nil => intro m _; exact ⟨m, rfl, rfl, rfl⟩
  | cons f rest ih =>
    intro m hlen
    rw [mainLoop]
    by_cases ho : m.window.isOpen = true
    · obtain ⟨m1, e1, -, -, a1, a2, -⟩ := frame_spec L f m hlen
      obtain ⟨m2, e2, b1, b2⟩ := ih m1 (by rw [a1, a2]; exact hlen)
      refine ⟨m2, ?_, by rw [b1, a1], by rw [b2, a2]⟩
      rw [if_pos ho, e1]
      exact e2
    · exact ⟨m, by rw [if_neg ho], rfl, rfl⟩

/-- Without a `Closed` event the frame loop runs one frame per input and the
window stays open. -/
theorem mainLoop_open (L : Lib) (inputs : List FrameInput) : ∀ m : Main,
    m.state.bodies.length ≤ m.state.sprites.length → m.window.isOpen = true →
    (∀ f ∈ inputs, ∀ e ∈ f.events, e.type ≠ EventType.Closed) →
    ∃ m1, mainLoop L inputs m = .ok m1 ∧ m1.window.isOpen = true ∧
      m1.window.displayed.length = m.window.displayed.length + inputs.length := by
  induction inputs with
  | nil => intro m _ ho _; exact ⟨m, rfl, ho, rfl⟩
  | cons f rest ih =>
    intro m hlen ho hev
    obtain ⟨m1, e1, a0, a3, a1, a2, -⟩ := frame_spec L f m hlen
    rw [pollLoop_other f.events m (hev f (List.mem_cons_self f rest))] at a0
    obtain ⟨m2, e2, b1, b2⟩ := ih m1 (by rw [a1, a2]; exact hlen) (by rw [a0, ho])
      (fun f1 h1 => hev f1 (List.mem_cons_of_mem f h1))
    refine ⟨m2, ?_, b1, ?_⟩
    · rw [mainLoop, if_pos ho, e1]
      exact e2
    · rw [b2, a3, List.length_cons]
      omega

/-- The wall loop is its body run at the counters 0, 2, 4, 6. -/
theorem wallLoop_eq_foldlM (sl : State × List Access) :
    wallLoop 0 sl = [0, 2, 4, 6].foldlM (fun acc j => wallBody j acc) sl := by
  rw [wallLoop_step 0 (by decide), List.foldlM_cons]
  cases wallBody 0 sl with
  | error e => rfl
  | ok a =>
    show wallLoop 2 a = List.foldlM (fun acc j => wallBody j acc) a [2, 4, 6]
    rw [wallLoop_step 2 (by decide), List.foldlM_cons]
    cases wallBody 2 a with
    | error e => rfl
    | ok b =>
      show wallLoop 4 b = List.foldlM (fun acc j => wallBody j acc) b [4, 6]
      rw [wallLoop_step 4 (by decide), List.foldlM_cons]
      cases wallBody 4 b with
      | error e => rfl
      | ok c =>
        show wallLoop 6 c = List.foldlM (fun acc j => wallBody j acc) c [6]
        rw [wallLoop_step 6 (by decide), List.foldlM_cons]
        cases wallBody 6 c with
        | error e => rfl
        | ok d =>
          show wallLoop 8 d = List.foldlM (fun acc j => wallBody j acc) d []
          rw [wallLoop_done 8 (by decide)]
          rfl

theorem range_lookup_some {n i b : Nat} (h : (List.range n)[i]? = some b) : i = b ∧ i < n := by
  have hi : i < n := by
    by_contra hc
    rw [List.getElem?_eq_none (by simpa using hc)] at h
    cases h
  rw [List.getElem?_eq_getElem (by simpa using hi)] at h
  simp only [List.getElem_range, Option.some.injEq] at h
  exact ⟨h, hi⟩

theorem framesM_spec (L : Lib) (dts : List ℚ) : ∀ s : State,
    s.bodies.length ≤ s.sprites.length →
    ∃ s1, dts.foldlM (fun acc dt => Update L dt acc) s = .ok s1 ∧
      s1.sprites = s.sprites ∧ s1.bodies = s.bodies := by
  induction dts with
  | nil => intro s _; exact ⟨s, rfl, rfl, rfl⟩
  | cons dt rest ih =>
    intro s hlen
    obtain ⟨s1, e1, a1, a2, -⟩ := Update_spec L dt s hlen
    obtain ⟨s2, e2, b1, b2⟩ := ih s1 (by rw [a1, a2]; exact hlen)
    refine ⟨s2, ?_, by rw [b1, a1], by rw [b2, a2]⟩
    rw [List.foldlM_cons, e1]
    exact e2

theorem layoutShape_box (k : Nat) (hk : k < 10) :
    layoutShape (k + 4) = ⟨⟨((k + 1 : Nat) : ℚ) * (800 / 12), 420⟩, ⟨50, 50⟩, ⟨25, 25⟩, 0,
      box_cols.getD ((k + 1) % 5) Color.White⟩ := by
  rw [layoutShape, if_pos hk]

/-- Two different shapes of the layout, one of them a box, share no point. -/
theorem layoutShape_disjoint (i j : Nat) (hi1 : 4 ≤ i) (hi2 : i < 14) (hj : j < 14)
    (hij : i ≠ j) (q : Vector2f) :
    ¬ ((layoutShape i).covers q ∧ (layoutShape j).covers q) := by
  obtain ⟨k, rfl⟩ := Nat.exists_eq_add_of_le' hi1
  have hk : k < 10 := by omega
  have hk0 : (0 : ℚ) ≤ (k : ℚ) := Nat.cast_nonneg k
  have hk9 : (k : ℚ) ≤ 9 := by exact_mod_cast Nat.le_of_lt_succ hk
  rw [layoutShape_box k hk]
  rintro ⟨⟨a1, a2, a3, a4⟩, ⟨b1, b2, b3, b4⟩⟩
  simp only [Nat.cast_add, Nat.cast_one] at a1 a2 a3 a4
  by_cases hj4 : 4 ≤ j
  · obtain ⟨l, rfl⟩ := Nat.exists_eq_add_of_le' hj4
    have hl : l < 10 := by omega
    rw [layoutShape_box l hl] at b1 b2 b3 b4
    simp only [Nat.cast_add, Nat.cast_one] at b1 b2 b3 b4
    have hkl : k < l ∨ l < k := by omega
    rcases hkl with h | h
    · have : (k : ℚ) + 1 ≤ l := by exact_mod_cast h
      linarith
    · have : (l : ℚ) + 1 ≤ k := by exact_mod_cast h
      linarith
  · have hj3 : j < 4 := Nat.lt_of_not_le hj4
    interval_cases j <;> norm_num [layoutShape] at b1 b2 b3 b4 <;> linarith

theorem layoutShape_origin (p : Nat) (hp : p < 14) :
    (layoutShape p).origin = ⟨(layoutShape p).size.x / 2, (layoutShape p).size.y / 2⟩ := by
  interval_cases p <;> norm_num [layoutShape]

theorem layoutBody_form (p : Nat) (hp : p < 14) :
    (layoutBody p).position =
      ⟨(layoutShape p).position.x / 30, (layoutShape p).position.y / 30⟩ ∧
    ∃ d f, (layoutBody p).fixtures =
      [⟨d, f, 1, ⟨(layoutShape p).size.x / 60, (layoutShape p).size.y / 60⟩⟩] := by
  unfold layoutBody
  by_cases h : p < 4
  · rw [if_pos h]
    exact ⟨rfl, 0, 1, rfl⟩
  · rw [if_neg h, if_pos hp]
    exact ⟨rfl, 10, 8 / 10, rfl⟩

/-- A body of the layout covers a point exactly when its shape covers the point
scaled to screen units. -/
theorem layoutBody_covers (p : Nat) (hp : p < 14) (q : b2Vec2) :
    (layoutBody p).covers q ↔ (layoutShape p).covers (bv2_to_sv2 q) := by
  obtain ⟨h1, d, f, h2⟩ := layoutBody_form p hp
  have h3 := layoutShape_origin p hp
  unfold b2Body.covers RectangleShape.covers
  rw [h1, h2, h3]
  simp only [List.mem_singleton, exists_eq_left, bv2_to_sv2, physics_scale]
  constructor <;> rintro ⟨a1, a2, a3, a4⟩ <;> refine ⟨?_, ?_, ?_, ?_⟩ <;> linarith

/-! ## The claims -/

/-- C1: starting from empty vectors, `init` returns with fourteen sprites and
fourteen bodies, and the body at index `i` is the one `CreatePhysicsBox` builds
from the sprite at index `i` (static for `i < 4`; dynamic and then given the
angular impulse 5 for `i ≥ 4`).  `Update` (when the two lengths agree) returns
and leaves both vectors exactly as they are, `Render` leaves the whole state as
it is, so after `init` and any number of frames both vectors are the ones `init`
built, element for element. -/
theorem C1_parallel_lists :
    State.initial.sprites = [] ∧ State.initial.bodies = [] ∧
    ∃ s log, init State.initial = .ok (s, log) ∧
      s.sprites.length = 14 ∧ s.bodies.length = 14 ∧
      (∀ (i : Nat) (sp : ShapePtr) (b : BodyPtr), s.sprites[i]? = some sp → s.bodies[i]? = some b →
        ∀ w : b2World,
          s.world.body b =
            (if 4 ≤ i then
              (CreatePhysicsBox_rs w true (s.store sp)).1.ApplyAngularImpulse
                (CreatePhysicsBox_rs w true (s.store sp)).2 5
             else (CreatePhysicsBox_rs w false (s.store sp)).1).body
              (CreatePhysicsBox_rs w (decide (4 ≤ i)) (s.store sp)).2) ∧
      (∀ (L : Lib) (dt : ℚ) (s1 : State), s1.sprites.length = s1.bodies.length →
        ∃ s2, Update L dt s1 = .ok s2 ∧ s2.sprites = s1.sprites ∧ s2.bodies = s1.bodies) ∧
      (∀ m : Main, (Render m).state = m.state) ∧
      (∀ (L : Lib) (dts : List ℚ),
        ∃ s1, dts.foldlM (fun acc dt => Update L dt acc) s = .ok s1 ∧
          s1.sprites = s.sprites ∧ s1.bodies = s.bodies) ∧
      (∀ (L : Lib) (inputs : List FrameInput),
        ∃ m, main L inputs = .ok m ∧ m.state.sprites = s.sprites ∧
          m.state.bodies = s.bodies) := by
  refine ⟨rfl, rfl, ?_⟩
  obtain ⟨s, hs, h1, h2, h3, h4, h5, h6, h7⟩ := init_eval
  have hlen : s.bodies.length ≤ s.sprites.length := by rw [h1, h2]
  refine ⟨s, layoutReads, hs, by rw [h1]; rfl, by rw [h2]; rfl, ?_, ?_, ?_, ?_, ?_⟩
  · intro i sp b hsp hb w
    rw [h1] at hsp
    rw [h2] at hb
    obtain ⟨rfl, hi⟩ := range_lookup_some hsp
    obtain ⟨rfl, -⟩ := range_lookup_some hb
    rw [h6 i hi, h7 i hi]
    simp only [CreatePhysicsBox_rs, CreatePhysicsBox_ptr]
    by_cases h : 4 ≤ i
    · have h4 : ¬ i < 4 := Nat.not_lt.mpr h
      simp only [if_pos h, ApplyAngularImpulse_body, CreatePhysicsBox_body, if_true]
      simp only [layoutBody, h4, hi, if_false, if_true]
      interval_cases i <;>
        norm_num [layoutShape, RectangleShape.getPosition, RectangleShape.getSize, sv2_to_bv2,
          physics_scale_inv, physics_scale]
    · have h4 : i < 4 := Nat.lt_of_not_le h
      simp only [if_neg h, CreatePhysicsBox_body, if_true]
      simp only [layoutBody, h4, if_true]
      interval_cases i <;>
        norm_num [layoutShape, RectangleShape.getPosition, RectangleShape.getSize, sv2_to_bv2,
          physics_scale_inv, physics_scale]
  · intro L dt s1 h
    obtain ⟨s2, e, a1, a2, -⟩ := Update_spec L dt s1 (by rw [h])
    exact ⟨s2, e, a1, a2⟩
  · intro m
    exact renderLoop_state _ _
  · intro L dts
    exact framesM_spec L dts s hlen
  · intro L inputs
    unfold main
    rw [hs]
    exact mainLoop_spec L inputs _ hlen

/-- C1 at index 0 and at one frame: the first body is the one built from the
first sprite, and a frame on the state `init` returns keeps both vectors. -/
theorem C1_parallel_lists_witness :
    ∃ s log, init State.initial = .ok (s, log) ∧
      (∃ sp b, s.sprites[0]? = some sp ∧ s.bodies[0]? = some b ∧
        s.world.body b = (CreatePhysicsBox_rs (b2World.new ⟨0, -10⟩) false (s.store sp)).1.body
          (CreatePhysicsBox_rs (b2World.new ⟨0, -10⟩) false (s.store sp)).2) ∧
      ∃ s2, Update ⟨22 / 7, fun _ _ _ w => w⟩ 0 s = .ok s2 ∧
        s2.sprites = s.sprites ∧ s2.bodies = s.bodies := by
  obtain ⟨-, -, s, log, hs, l1, l2, hi, hu, -⟩ := C1_parallel_lists
  have g1 : s.sprites[0]? = some (s.sprites[0]) := List.getElem?_eq_getElem (by omega)
  have g2 : s.bodies[0]? = some (s.bodies[0]) := List.getElem?_eq_getElem (by omega)
  exact ⟨s, log, hs, ⟨_, _, g1, g2, hi 0 _ _ g1 g2 (b2World.new ⟨0, -10⟩)⟩,
    hu ⟨22 / 7, fun _ _ _ w => w⟩ 0 s (by rw [l1, l2])⟩

/-- C2: `init` creates fourteen bodies and nothing else: the bodies at indices
0..3 are static with a fixture of density 0, those at indices 4..13 are dynamic
with a fixture of density 10 (as `CreatePhysicsBox` makes them for
`dynamic = false` and `dynamic = true`); the wall loop runs its body at the
counters 0, 2, 4, 6 (4 times) and the box loop at the counters 1..10 (10 times). -/
theorem C2_init_bodies :
    ∃ s log, init State.initial = .ok (s, log) ∧
      s.bodies = List.range 14 ∧ s.world.bodyCount = 14 ∧
      (∀ i b, i < 4 → s.bodies[i]? = some b →
        (s.world.body b).type = b2BodyType.b2_staticBody ∧
        (s.world.body b).fixtures.map (fun fd => fd.density) = [0]) ∧
      (∀ i b, 4 ≤ i → i < 14 → s.bodies[i]? = some b →
        (s.world.body b).type = b2BodyType.b2_dynamicBody ∧
        (s.world.body b).fixtures.map (fun fd => fd.density) = [10]) ∧
      (∀ (w : b2World) (dynamic : Bool) (pos size : Vector2f),
        ((CreatePhysicsBox w dynamic pos size).1.body (CreatePhysicsBox w dynamic pos size).2).type
          = (if dynamic then b2BodyType.b2_dynamicBody else b2BodyType.b2_staticBody) ∧
        ((CreatePhysicsBox w dynamic pos size).1.body
          (CreatePhysicsBox w dynamic pos size).2).fixtures.map (fun fd => fd.density)
          = [if dynamic then 10 else 0]) ∧
      (∀ sl, wallLoop 0 sl = [0, 2, 4, 6].foldlM (fun acc j => wallBody j acc) sl) ∧
      (∀ sl, boxLoop 1 sl =
        [1, 2, 3, 4, 5, 6, 7, 8, 9, 10].foldlM (fun acc j => boxBody j acc) sl) := by
  obtain ⟨s, hs, h1, h2, h3, h4, h5, h6, h7⟩ := init_eval
  refine ⟨s, layoutReads, hs, h2, h4, ?_, ?_, ?_, wallLoop_eq_foldlM, ?_⟩
  · intro i b hi hb
    rw [h2] at hb
    obtain ⟨rfl, -⟩ := range_lookup_some hb
    rw [h7 i (by omega)]
    simp [layoutBody, hi]
  · intro i b hi1 hi2 hb
    rw [h2] at hb
    obtain ⟨rfl, -⟩ := range_lookup_some hb
    rw [h7 i hi2]
    have : ¬ i < 4 := Nat.not_lt.mpr hi1
    simp [layoutBody, this, hi2]
  · intro w dynamic pos size
    rw [CreatePhysicsBox_ptr, CreatePhysicsBox_body, if_pos rfl]
    exact ⟨rfl, rfl⟩
  · intro sl
    rw [boxLoop_eq_foldlM 10 1 rfl]
    rfl

/-- C2 at the indices 0 and 4: the first wall is static, the first box dynamic. -/
theorem C2_init_bodies_witness :
    ∃ s log, init State.initial = .ok (s, log) ∧
      (s.world.body 0).type = b2BodyType.b2_staticBody ∧
      (s.world.body 4).type = b2BodyType.b2_dynamicBody := by
  obtain ⟨s, log, h, hb, -, hw, hd, -⟩ := C2_init_bodies
  exact ⟨s, log, h, (hw 0 0 (by decide) (by rw [hb]; rfl)).1,
    (hd 4 4 (by decide) (by decide) (by rw [hb]; rfl)).1⟩

/-- C4, what the code does: the round trip through `CreatePhysicsBox` and the sync
of `Update` is `(x, y) ↦ (x, 600 - y)`, not the identity.  With a step that moves
nothing, the top wall, created at `(400, 5)`, is set to `(400, 595)` by the first
`Update`. -/
theorem C4_sync_flips_height (pi dt : ℚ) :
    (∀ p : Vector2f, invert_height (bv2_to_sv2 (sv2_to_bv2 p)) = ⟨p.x, 600 - p.y⟩) ∧
    invert_height (bv2_to_sv2 (sv2_to_bv2 ⟨400, 5⟩)) ≠ ⟨400, 5⟩ ∧
    ∃ s log s1, init State.initial = .ok (s, log) ∧
      s.sprites[0]? = some 0 ∧ s.bodies[0]? = some 0 ∧
      (s.store 0).position = ⟨400, 5⟩ ∧
      (s.world.body 0).position = sv2_to_bv2 ⟨400, 5⟩ ∧
      Update ⟨pi, fun _ _ _ w => w⟩ dt s = .ok s1 ∧
      (s1.store 0).position = ⟨400, 595⟩ := by
  have hround : ∀ p : Vector2f, invert_height (bv2_to_sv2 (sv2_to_bv2 p)) = ⟨p.x, 600 - p.y⟩ := by
    rintro ⟨x, y⟩
    simp [invert_height, bv2_to_sv2, sv2_to_bv2, physics_scale_inv, physics_scale, gameHeight]
  refine ⟨hround, ?_, ?_⟩
  · rw [hround]
    norm_num
  obtain ⟨s, hs, h1, h2, h3, h4, h5, h6, h7⟩ := init_eval
  obtain ⟨s1, e, -, -, -, -, -, -, hsync⟩ :=
    Update_spec ⟨pi, fun _ _ _ w => w⟩ dt s (by rw [h1, h2])
  have g1 : s.sprites[0]? = some 0 := by rw [h1]; rfl
  have g2 : s.bodies[0]? = some 0 := by rw [h2]; rfl
  have hb : (s.world.body 0).position = sv2_to_bv2 ⟨400, 5⟩ := by
    rw [h7 0 (by decide)]
    norm_num [layoutBody, layoutShape, sv2_to_bv2, physics_scale_inv, physics_scale]
  refine ⟨s, layoutReads, s1, hs, g1, g2, ?_, hb, e, ?_⟩
  · rw [h6 0 (by decide)]
    rfl
  · have := (hsync 0 0 0 g1 g2 ?_).1
    · rw [this]
      simp only
      rw [hb, hround]
      norm_num
    · intro j1 hj1 hj2 hc
      rw [h1] at hc
      have := (range_lookup_some hc).1
      omega

/-- C5: a frame that starts with the window open (and does not fault) ends with
the window closed exactly when one of the events polled in it has type `Closed`;
once the window is closed the frame loop runs no further frame; on inputs without
a `Closed` event the program never leaves the loop: it runs one frame per input
and the window is still open; an event of any other type leaves window and
program state as they are, and no event changes the program state. -/
theorem C5_only_close_ends_loop :
    (∀ (L : Lib) (f : FrameInput) (m : Main), m.window.isOpen = true →
      m.state.bodies.length ≤ m.state.sprites.length →
      ∃ m1, frame L f m = .ok m1 ∧
        (m1.window.isOpen = false ↔ ∃ e ∈ f.events, e.type = EventType.Closed)) ∧
    (∀ (L : Lib) (inputs : List FrameInput) (m : Main), m.window.isOpen = false →
      mainLoop L inputs m = .ok m) ∧
    (∀ (L : Lib) (inputs : List FrameInput),
      (∀ f ∈ inputs, ∀ e ∈ f.events, e.type ≠ EventType.Closed) →
      ∃ m, main L inputs = .ok m ∧ m.window.isOpen = true ∧
        m.window.displayed.length = inputs.length) ∧
    (∀ (e : Event) (m : Main), e.type ≠ EventType.Closed → handleEvent e m = m) ∧
    (∀ (evs : List Event) (m : Main), (∀ e ∈ evs, e.type ≠ EventType.Closed) →
      pollLoop evs m = m) ∧
    (∀ (evs : List Event) (m : Main), (pollLoop evs m).state = m.state) := by
  refine ⟨?_, ?_, ?_, handleEvent_other, pollLoop_other, pollLoop_state⟩
  · intro L f m ho hlen
    obtain ⟨m1, e, a0, -⟩ := frame_spec L f m hlen
    refine ⟨m1, e, ?_⟩
    rw [a0, pollLoop_isOpen, ho]
    simp
  · intro L inputs m hc
    cases inputs with
    | nil => rfl
    | cons f rest =>
      rw [mainLoop, hc]
      rfl
  · intro L inputs hev
    obtain ⟨s, hs, h1, h2, -⟩ := init_eval
    unfold main
    rw [hs]
    obtain ⟨m, e, a1, a2⟩ := mainLoop_open L inputs
      { window := { isOpen := true, buffer := [], displayed := [] }, state := s }
      (by rw [h1, h2]) rfl hev
    exact ⟨m, e, a1, by simpa using a2⟩

/-- C5 on concrete inputs, from the state `init` builds: a frame with a key press
and a `Closed` event closes the window; two frames with a key press and no event
at all leave it open after two frames. -/
theorem C5_only_close_ends_loop_witness :
    (∃ s log, init State.initial = .ok (s, log) ∧
      ∃ m1, frame ⟨22 / 7, fun _ _ _ w => w⟩
          ⟨[⟨EventType.KeyPressed⟩, ⟨EventType.Closed⟩], 1 / 60⟩
          ⟨⟨true, [], []⟩, s⟩ = .ok m1 ∧ m1.window.isOpen = false) ∧
    (∃ m, main ⟨22 / 7, fun _ _ _ w => w⟩ [⟨[⟨EventType.KeyPressed⟩], 1 / 60⟩, ⟨[], 1 / 60⟩]
        = .ok m ∧ m.window.isOpen = true ∧ m.window.displayed.length = 2) := by
  refine ⟨?_, ?_⟩
  · obtain ⟨s, hs, h1, h2, -⟩ := init_eval
    obtain ⟨m1, e, h⟩ := C5_only_close_ends_loop.1 ⟨22 / 7, fun _ _ _ w => w⟩
      ⟨[⟨EventType.KeyPressed⟩, ⟨EventType.Closed⟩], 1 / 60⟩ ⟨⟨true, [], []⟩, s⟩ rfl
      (by show s.bodies.length ≤ s.sprites.length; rw [h1, h2])
    exact ⟨s, layoutReads, hs, m1, e, h.2 ⟨⟨EventType.Closed⟩, by simp, rfl⟩⟩
  · exact C5_only_close_ends_loop.2.2.1 ⟨22 / 7, fun _ _ _ w => w⟩ _ (by
      intro f hf e he
      simp only [List.mem_cons, List.mem_singleton, List.not_mem_nil, or_false] at hf
      rcases hf with rfl | rfl
      · simp only [List.mem_singleton] at he
        subst he
        decide
      · simp at he)

/-- C6: the body `CreatePhysicsBox` makes from a rectangle shape with position `p`
and size `(w, h)` sits at `sv2_to_bv2 p = (p.x/30, p.y/30)` and carries exactly one
fixture, a box with half-extents `(w/60, h/60)`; twice these half-extents,
converted back with `bv2_to_sv2`, are `(w, h)`. -/
theorem C6_box_matches_shape (world : b2World) (dynamic : Bool) (rs : RectangleShape) :
    ((CreatePhysicsBox_rs world dynamic rs).1.body (CreatePhysicsBox_rs world dynamic rs).2).position
        = sv2_to_bv2 rs.position ∧
    sv2_to_bv2 rs.position = ⟨rs.position.x / 30, rs.position.y / 30⟩ ∧
    (((CreatePhysicsBox_rs world dynamic rs).1.body
        (CreatePhysicsBox_rs world dynamic rs).2).fixtures.map (fun fd => fd.shape))
        = [⟨rs.size.x / 60, rs.size.y / 60⟩] ∧
    (((CreatePhysicsBox_rs world dynamic rs).1.body
        (CreatePhysicsBox_rs world dynamic rs).2).fixtures.map
          (fun fd => bv2_to_sv2 ⟨2 * fd.shape.hx, 2 * fd.shape.hy⟩)) = [rs.size] := by
  have hp : (CreatePhysicsBox_rs world dynamic rs).2 = world.bodyCount :=
    CreatePhysicsBox_ptr world dynamic _ _
  have hb := CreatePhysicsBox_body world dynamic rs.getPosition rs.getSize world.bodyCount
  rw [if_pos rfl] at hb
  rw [hp]
  unfold CreatePhysicsBox_rs
  rw [hb]
  obtain ⟨⟨px, py⟩, ⟨w, h⟩, o, r, c⟩ := rs
  refine ⟨rfl, ?_, ?_, ?_⟩
  · simp only [sv2_to_bv2, physics_scale_inv, physics_scale, b2Vec2.mk.injEq]
    constructor <;> ring
  · simp only [RectangleShape.getSize, sv2_to_bv2, physics_scale_inv, physics_scale, List.map_cons,
      List.map_nil, List.cons.injEq, b2PolygonShape.mk.injEq, and_true]
    constructor <;> ring
  · simp only [RectangleShape.getSize, sv2_to_bv2, physics_scale_inv, physics_scale, bv2_to_sv2,
      List.map_cons, List.map_nil, List.cons.injEq, Vector2f.mk.injEq, and_true]
    constructor <;> ring

/-- C7: `Update` reads `sprites[i]` and `bodies[i]` for the indices
`i < bodies.size()`; a pass of its loop body succeeds exactly when `i` is an index
of both vectors.  When the two lengths agree every index below `bodies.size()` is
an index of `sprites` and `Update` returns without fault, as it does after `init`
and any number of frames; in every state with fewer sprites than bodies (there is
one) `Update` ends in an out-of-range access. -/
theorem C7_update_index_bounds :
    (∀ (L : Lib) (i : Nat) (s : State), (∃ s1, syncBody L i s = .ok s1) ↔
      (i < s.sprites.length ∧ i < s.bodies.length)) ∧
    (∀ (L : Lib) (dt : ℚ) (s : State), s.sprites.length = s.bodies.length →
      (∀ i, i < s.bodies.length → i < s.sprites.length) ∧ ∃ s1, Update L dt s = .ok s1) ∧
    (∃ s log, init State.initial = .ok (s, log) ∧ s.sprites.length = s.bodies.length ∧
      ∀ (L : Lib) (dts : List ℚ), ∃ s1, dts.foldlM (fun acc dt => Update L dt acc) s = .ok s1 ∧
        s1.sprites.length = s1.bodies.length) ∧
    (∀ (L : Lib) (dt : ℚ) (s : State), s.sprites.length < s.bodies.length →
      Update L dt s = .error Fault.outOfRange) ∧
    (∃ s : State, s.sprites.length < s.bodies.length ∧
      ∀ (L : Lib) (dt : ℚ), Update L dt s = .error Fault.outOfRange) := by
  refine ⟨?_, ?_, ?_, Update_fault, shortState, by decide, fun L dt =>
    Update_fault L dt shortState (by decide)⟩
  · intro L i s
    constructor
    · rintro ⟨s1, h⟩
      by_contra hc
      have : s.sprites.length ≤ i ∨ s.bodies.length ≤ i := by omega
      unfold syncBody at h
      rcases this with h1 | h1
      · rw [List.getElem?_eq_none h1] at h
        cases h
      · rw [List.getElem?_eq_none h1] at h
        split at h <;> simp_all
    · rintro ⟨h1, h2⟩
      exact ⟨_, syncBody_eval L i s _ _ (List.getElem?_eq_getElem h1)
        (List.getElem?_eq_getElem h2)⟩
  · intro L dt s h
    obtain ⟨s1, e, -⟩ := Update_spec L dt s (by rw [h])
    exact ⟨fun i hi => by omega, s1, e⟩
  · obtain ⟨s, hs, h1, h2, -⟩ := init_eval
    refine ⟨s, layoutReads, hs, by rw [h1, h2], ?_⟩
    intro L dts
    obtain ⟨s1, e, a1, a2⟩ := framesM_spec L dts s (by rw [h1, h2])
    exact ⟨s1, e, by rw [a1, a2, h1, h2]⟩

/-- C7 at the state `init` builds (fourteen sprites, fourteen bodies) and at a
state with one body and no sprite. -/
theorem C7_update_index_bounds_witness :
    (∃ s log, init State.initial = .ok (s, log) ∧
      ∃ s1, Update ⟨22 / 7, fun _ _ _ w => w⟩ (1 / 60) s = .ok s1) ∧
    shortState.sprites.length < shortState.bodies.length ∧
    Update ⟨22 / 7, fun _ _ _ w => w⟩ (1 / 60) shortState = .error Fault.outOfRange := by
  obtain ⟨-, hu, ⟨s, log, hs, hlen, -⟩, hf, -⟩ := C7_update_index_bounds
  exact ⟨⟨s, log, hs, (hu ⟨22 / 7, fun _ _ _ w => w⟩ (1 / 60) s hlen).2⟩, by decide,
    hf ⟨22 / 7, fun _ _ _ w => w⟩ (1 / 60) shortState (by decide)⟩

/-- C8: in the state `init` builds, the ten boxes sit at indices 4..13 with size
`50 x 50` and centre `(k * 800/12, 420)` for `k = 1..10` (origin at the middle),
the four walls at indices 0..3 with centres `(400, 5)`, `(400, 595)`, `(5, 300)`,
`(795, 300)` and sizes `(800, 10)`, `(800, 10)`, `(10, 600)`, `(10, 600)`;
adjacent box centres are `800/12 > 50` apart; the rectangle of a box shares no
point with the rectangle of any other sprite (box or wall), and the physics box of
a box body shares no point with the physics box of any other body. -/
theorem C8_layout_no_overlap :
    (50 : ℚ) < gameWidth / 12 ∧
    ∃ s log, init State.initial = .ok (s, log) ∧
      (∀ (k : Nat) (sp : ShapePtr), 1 ≤ k → k ≤ 10 → s.sprites[k + 3]? = some sp →
        (s.store sp).position = ⟨(k : ℚ) * (800 / 12), 420⟩ ∧
        (s.store sp).size = ⟨50, 50⟩ ∧ (s.store sp).origin = ⟨25, 25⟩) ∧
      (s.sprites.map (fun sp => ((s.store sp).position, (s.store sp).size))).take 4 =
        [(⟨400, 5⟩, ⟨800, 10⟩), (⟨400, 595⟩, ⟨800, 10⟩), (⟨5, 300⟩, ⟨10, 600⟩),
         (⟨795, 300⟩, ⟨10, 600⟩)] ∧
      (∀ (i j : Nat) (sp1 sp2 : ShapePtr), 4 ≤ i → i < 14 → j < 14 → i ≠ j →
        s.sprites[i]? = some sp1 → s.sprites[j]? = some sp2 →
        ∀ q, ¬ ((s.store sp1).covers q ∧ (s.store sp2).covers q)) ∧
      (∀ (i j : Nat) (b1 b2 : BodyPtr), 4 ≤ i → i < 14 → j < 14 → i ≠ j →
        s.bodies[i]? = some b1 → s.bodies[j]? = some b2 →
        ∀ q, ¬ ((s.world.body b1).covers q ∧ (s.world.body b2).covers q)) := by
  refine ⟨by norm_num [gameWidth], ?_⟩
  obtain ⟨s, hs, h1, h2, h3, h4, h5, h6, h7⟩ := init_eval
  refine ⟨s, layoutReads, hs, ?_, ?_, ?_, ?_⟩
  · intro k sp hk1 hk2 hsp
    rw [h1] at hsp
    obtain ⟨rfl, hlt⟩ := range_lookup_some hsp
    rw [h6 _ hlt]
    obtain ⟨l, rfl⟩ := Nat.exists_eq_add_of_le' hk1
    rw [show l + 1 + 3 = l + 4 from rfl, layoutShape_box l (by omega)]
    exact ⟨rfl, rfl, rfl⟩
  · rw [h1]
    simp only [List.range_succ, List.range_zero, List.nil_append, List.cons_append,
      List.map_cons, List.take_succ_cons, List.take_zero, h6 0 (by decide), h6 1 (by decide),
      h6 2 (by decide), h6 3 (by decide)]
    rfl
  · intro i j sp1 sp2 hi1 hi2 hj hij g1 g2 q
    rw [h1] at g1 g2
    obtain ⟨rfl, -⟩ := range_lookup_some g1
    obtain ⟨rfl, -⟩ := range_lookup_some g2
    rw [h6 i hi2, h6 j hj]
    exact layoutShape_disjoint i j hi1 hi2 hj hij q
  · intro i j b1 b2 hi1 hi2 hj hij g1 g2 q
    rw [h2] at g1 g2
    obtain ⟨rfl, -⟩ := range_lookup_some g1
    obtain ⟨rfl, -⟩ := range_lookup_some g2
    rw [h7 i hi2, h7 j hj, layoutBody_covers i hi2, layoutBody_covers j hj]
    exact layoutShape_disjoint i j hi1 hi2 hj hij _

/-- C8 at the first box (index 4) and the left wall (index 2). -/
theorem C8_layout_no_overlap_witness :
    ∃ s log, init State.initial = .ok (s, log) ∧
      ∃ sp1 sp2, s.sprites[4]? = some sp1 ∧ s.sprites[2]? = some sp2 ∧
        ∀ q, ¬ ((s.store sp1).covers q ∧ (s.store sp2).covers q) := by
  obtain ⟨-, s, log, hs, hc, hw, hd, -⟩ := C8_layout_no_overlap
  have hlen : s.sprites.length = 14 := by
    obtain ⟨s2, hs2, h1, -⟩ := init_eval
    rw [hs] at hs2
    cases hs2
    rw [h1]
    rfl
  have g1 : s.sprites[4]? = some (s.sprites[4]) := List.getElem?_eq_getElem (by omega)
  have g2 : s.sprites[2]? = some (s.sprites[2]) := List.getElem?_eq_getElem (by omega)
  exact ⟨s, log, hs, _, _, g1, g2, hd 4 2 _ _ (by decide) (by decide) (by decide) (by decide) g1 g2⟩

/-- C9: with `physics_scale = 30` and `physics_scale_inv = 1/30`, the two scale
conversions are mutually inverse on every vector, and `invert_height` is an
involution that leaves `x` unchanged. -/
theorem C9_conversions_inverse :
    physics_scale = 30 ∧ physics_scale_inv = 1 / 30 ∧
    (∀ v : Vector2f, bv2_to_sv2 (sv2_to_bv2 v) = v) ∧
    (∀ v : b2Vec2, sv2_to_bv2 (bv2_to_sv2 v) = v) ∧
    (∀ v : Vector2f, invert_height (invert_height v) = v) ∧
    (∀ v : Vector2f, (invert_height v).x = v.x) := by
  refine ⟨rfl, by norm_num [physics_scale_inv, physics_scale], ?_, ?_, ?_, ?_⟩
  · rintro ⟨x, y⟩
    simp [bv2_to_sv2, sv2_to_bv2, physics_scale_inv, physics_scale]
  · rintro ⟨x, y⟩
    simp [bv2_to_sv2, sv2_to_bv2, physics_scale_inv, physics_scale]
  · rintro ⟨x, y⟩
    simp [invert_height]
  · intro v
    rfl

/-- C10 as stated fails: `init` reads the size entry `walls[1]` twice (once for
`setSize`, once for `setOrigin`), not exactly once. -/
theorem C10_size_entry_read_twice :
    ∃ s log, init State.initial = .ok (s, log) ∧ log.count (Access.walls 1) = 2 ∧
      log.count (Access.walls 1) ≠ 1 := by
  obtain ⟨s, hs, -⟩ := init_eval
  exact ⟨s, layoutReads, hs, by decide, by decide⟩

/-- C10, amended: `init` returns without an out-of-range read, every read of
`walls` and `box_cols` it performs is in bounds, each position entry of `walls`
(even index) is read exactly once and each size entry (odd index) exactly twice,
each of the 5 colours is read exactly twice; the wall loop runs at the counters
0, 2, 4, 6 and a pass at counter `i` with `i + 1 < 8` reads `walls[i]`,
`walls[i+1]`, `walls[i+1]` and uses them as position and size; the box loop runs
at the counters 1..10 and a pass at counter `i` reads `box_cols[i % 5]`. -/
theorem C10_array_reads_in_bounds :
    walls.length = 8 ∧ box_cols.length = 5 ∧
    ∃ s log, init State.initial = .ok (s, log) ∧
      (∀ a ∈ log, a.inBounds) ∧
      (∀ k, k < 8 → log.count (Access.walls k) = if k % 2 = 0 then 1 else 2) ∧
      (∀ c, c < 5 → log.count (Access.box_cols c) = 2) ∧
      (∀ sl, wallLoop 0 sl = [0, 2, 4, 6].foldlM (fun acc j => wallBody j acc) sl) ∧
      (∀ sl, boxLoop 1 sl =
        [1, 2, 3, 4, 5, 6, 7, 8, 9, 10].foldlM (fun acc j => boxBody j acc) sl) ∧
      (∀ (i : Nat) (s0 : State) (log0 : List Access), i + 1 < 8 →
        ∃ s1 p sz, wallBody i (s0, log0) = .ok (s1, log0 ++
            [Access.walls i, Access.walls (i + 1), Access.walls (i + 1)]) ∧
          walls[i]? = some p ∧ walls[i + 1]? = some sz ∧
          (s1.store s0.storeNext).position = p ∧ (s1.store s0.storeNext).size = sz) ∧
      (∀ (i : Nat) (s0 : State) (log0 : List Access),
        i % 5 < 5 ∧ ∃ s1, boxBody i (s0, log0) = .ok (s1, log0 ++ [Access.box_cols (i % 5)])) := by
  refine ⟨rfl, rfl, ?_⟩
  obtain ⟨s, hs, -⟩ := init_eval
  refine ⟨s, layoutReads, hs, ?_, ?_, ?_, wallLoop_eq_foldlM, ?_, ?_, ?_⟩
  · intro a ha
    simp only [layoutReads, List.mem_cons, List.mem_singleton, List.not_mem_nil, or_false] at ha
    rcases ha with h | h | h | h | h | h | h | h | h | h | h | h | h | h | h | h | h | h | h | h
      | h | h <;> subst h <;> simp [Access.inBounds, walls, box_cols]
  · intro k hk
    interval_cases k <;> decide
  · intro c hc
    interval_cases c <;> decide
  · intro sl
    rw [boxLoop_eq_foldlM 10 1 rfl]
    rfl
  · intro i s0 log0 hi
    have b1 : i < walls.length := by rw [walls_length]; omega
    have b2 : i + 1 < walls.length := by rw [walls_length]; omega
    refine ⟨_, walls[i], walls[i + 1], wallBody_eval i b1 b2 s0 log0,
      List.getElem?_eq_getElem b1, List.getElem?_eq_getElem b2, ?_, ?_⟩ <;> simp
  · intro i s0 log0
    have b1 : i % 5 < box_cols.length := by rw [box_cols_length]; omega
    exact ⟨by omega, _, boxBody_eval i b1 s0 log0⟩

/-- C10 (amended) at the wall-loop pass with counter 6, the last one: it reads
`walls[6]` and `walls[7]`. -/
theorem C10_array_reads_in_bounds_witness :
    ∃ s1 p sz, wallBody 6 (State.initial, []) = .ok (s1,
        [] ++ [Access.walls 6, Access.walls (6 + 1), Access.walls (6 + 1)]) ∧
      walls[6]? = some p ∧ walls[6 + 1]? = some sz ∧
      (s1.store State.initial.storeNext).position = p ∧
      (s1.store State.initial.storeNext).size = sz := by
  obtain ⟨-, -, s, log, -, -, -, -, -, -, h, -⟩ := C10_array_reads_in_bounds
  exact h 6 State.initial [] (by decide)

end Physics
